import Mathlib

/-!
Verification development for the creator-lab T-shirt configurator.

The definitions below are a shallow embedding of the TypeScript source:
  - `types.ts` (enumerations and the design state record),
  - `components/ThreeViewer.tsx` (garment mesh construction, decal UV
    remapping, color and texture update effects),
  - `components/DesignControls.tsx` (quantity selector, generate button),
  - `App.tsx` (state initialisation, generate handler),
  - `services/geminiService.ts` (prompt enhancement).

Numeric literals from the source are represented exactly as rationals.
Angles in the source are either rational multiples of pi (for example
Math.PI / 3.5) or plain radian literals (for example -0.8), so an angle is
represented exactly as a pair: a coefficient of pi plus a rational offset.
Vertex buffers produced by the external three.js geometry library are taken
as parameters; the embedding covers all code of this repository that reads
or writes them.
-/

/-- Enumeration `Theme` from `types.ts`. -/
inductive Theme where
  | cyberpunk
  | anime
  | minimalist
  | vaporwave
  | retro
  | nature
  | abstract
  deriving DecidableEq, Repr

/-- Enumeration `ShirtSize` from `types.ts`. -/
inductive ShirtSize where
  | S
  | M
  | L
  | XL
  | XXL
  deriving DecidableEq, Repr

/-- Enumeration `SleeveLength` from `types.ts`. -/
inductive SleeveLength where
  | sleeveless
  | short
  | long
  deriving DecidableEq, Repr

/-- The string value of each `SleeveLength` enum member, as declared in
`types.ts` (the source compares these strings directly). -/
def SleeveLength.value : SleeveLength → String
  | .sleeveless => "Sleeveless"
  | .short => "Short Sleeve"
  | .long => "Long Sleeve"

/-- Enumeration `FabricType` from `types.ts`. -/
inductive FabricType where
  | cotton
  | polyester
  | silk
  deriving DecidableEq, Repr

/-- The string value of each `FabricType` enum member, as declared in
`types.ts` (the source compares these strings directly). -/
def FabricType.value : FabricType → String
  | .cotton => "Premium Cotton"
  | .polyester => "Performance Poly"
  | .silk => "Silk Blend"

/-- An exact representation of the angles appearing in the source:
`piCoeff * pi + offset` radians.  `Math.PI / 3.5` is `⟨1 / 3.5, 0⟩`,
the literal `-0.8` is `⟨0, -0.8⟩`, the library default `2 * pi` is
`⟨2, 0⟩`. -/
structure Angle where
  piCoeff : ℚ
  offset : ℚ
  deriving DecidableEq, Repr

/-- A 3-vector of exact rational coordinates. -/
structure Vec3 where
  x : ℚ
  y : ℚ
  z : ℚ
  deriving DecidableEq, Repr

/-- Per-axis rotation of a mesh (three.js Euler angles); the library
default is zero on every axis. -/
structure Rot3 where
  x : Angle := ⟨0, 0⟩
  y : Angle := ⟨0, 0⟩
  z : Angle := ⟨0, 0⟩
  deriving DecidableEq, Repr

/-- Geometry constructor calls made by `ThreeViewer.tsx`, with the
arguments the source passes plus the library defaults for omitted
trailing arguments (CylinderGeometry defaults: 1 height segment, not
open-ended, theta from 0 over a full turn). -/
inductive Shape where
  | cylinder (radiusTop radiusBottom height : ℚ) (radialSegments heightSegments : ℕ)
      (openEnded : Bool) (thetaStart thetaLength : Angle)
  | torus (radius tube : ℚ) (radialSegments tubularSegments : ℕ)
  | sphere (radius : ℚ) (widthSegments heightSegments : ℕ)
      (phiStart phiLength thetaStart thetaLength : Angle)
  deriving DecidableEq, Repr

/-- The shared `MeshStandardMaterial` used by every non-decal part
(`ThreeViewer.tsx`, "Base Shirt Material"). -/
structure Material where
  color : String
  roughness : ℚ
  metalness : ℚ
  deriving DecidableEq, Repr

/-- three.js `side` parameter values. -/
inductive Side where
  | frontSide
  | backSide
  | doubleSide
  deriving DecidableEq, Repr

/-- three.js color-space tags relevant to the source. -/
inductive ColorSpace where
  | srgb
  | linearSrgb
  | noColorSpace
  deriving DecidableEq, Repr

/-- A decoded texture as seen by the source: its URL and the two fields
the source assigns (`colorSpace`, `flipY`). -/
structure Texture where
  url : String
  colorSpace : ColorSpace
  flipY : Bool
  deriving DecidableEq, Repr

/-- The decal `MeshStandardMaterial` (`printMat` in `ThreeViewer.tsx`).
Fields the constructor call does not set carry the three.js defaults
(`map` unset, white color, `needsUpdate` false). -/
structure PrintMaterial where
  transparent : Bool
  opacity : ℚ
  side : Side
  depthTest : Bool
  depthWrite : Bool
  polygonOffset : Bool
  polygonOffsetFactor : ℚ
  roughness : ℚ
  metalness : ℚ
  color : String := "#ffffff"
  map : Option Texture := none
  needsUpdate : Bool := false
  deriving DecidableEq, Repr

/-- One mesh added to the shirt group: its geometry constructor call, the
accumulated `.translate` applied to that geometry, and the mesh-level
fields the source sets.  Unset fields carry the three.js defaults.
`usesBaseMaterial` records whether the mesh references the shared base
material (every part except the print decal) or the decal material. -/
structure MeshPart where
  shape : Shape
  geoTranslate : Vec3 := ⟨0, 0, 0⟩
  position : Vec3 := ⟨0, 0, 0⟩
  rot : Rot3 := {}
  scale : Vec3 := ⟨1, 1, 1⟩
  castShadow : Bool := false
  receiveShadow : Bool := false
  usesBaseMaterial : Bool
  deriving DecidableEq, Repr

/-- The rebuilt shirt group: its child meshes in insertion order, the two
material instances, and the vertex buffers of the print geometry that the
source reads and writes (`printGeo.attributes.position` and
`printGeo.attributes.uv`). -/
structure GarmentMesh where
  parts : List MeshPart
  baseMaterial : Material
  printMaterial : PrintMaterial
  printPositions : List Vec3
  printUV : List (ℚ × ℚ)
  deriving DecidableEq, Repr

/-- Fabric material derivation from `ThreeViewer.tsx` lines 156-166:
defaults roughness 0.9 / metalness 0.0, overridden for the two non-cotton
fabrics by string comparison on the enum value. -/
def fabricParams (fabricType : FabricType) : ℚ × ℚ :=
  let roughness : ℚ := 0.9
  let metalness : ℚ := 0.0
  if fabricType.value = "Performance Poly" then (0.5, 0.1)
  else if fabricType.value = "Silk Blend" then (0.3, 0.2)
  else (roughness, metalness)

/-- Torso (`ThreeViewer.tsx` lines 175-182): flattened cylinder of radius
0.55 and height 1.5, scaled to half depth, casting and receiving
shadows. -/
def torso : MeshPart where
  shape := Shape.cylinder 0.55 0.55 1.5 32 1 false ⟨0, 0⟩ ⟨2, 0⟩
  scale := ⟨1, 1, 0.5⟩
  castShadow := true
  receiveShadow := true
  usesBaseMaterial := true

/-- Collar (`ThreeViewer.tsx` lines 184-189): thin torus positioned at the
neckline and rotated flat by pi / 2 about x. -/
def collar : MeshPart where
  shape := Shape.torus 0.22 0.04 16 32
  position := ⟨0, 0.75, 0⟩
  rot := { x := ⟨1 / 2, 0⟩ }
  usesBaseMaterial := true

/-- Sleeve branch (`ThreeViewer.tsx` lines 192-219): two tapered cylinders
sharing one geometry whose pivot is translated to the top, angled down by
pi / 3.5 on either side of the torso. -/
def sleeveParts (sleeveLength : SleeveLength) : List MeshPart :=
  let isLong := sleeveLength.value = "Long Sleeve"
  let sleeveLen : ℚ := if isLong then 1.6 else 0.6
  let sleeveRadTop : ℚ := 0.22
  let sleeveRadBot : ℚ := if isLong then 0.15 else 0.2
  let armShape := Shape.cylinder sleeveRadTop sleeveRadBot sleeveLen 32 1 false ⟨0, 0⟩ ⟨2, 0⟩
  let armTranslate : Vec3 := ⟨0, -(sleeveLen / 2), 0⟩
  let leftArm : MeshPart :=
    { shape := armShape
      geoTranslate := armTranslate
      position := ⟨0.5, 0.65, 0⟩
      rot := { z := ⟨1 / 3.5, 0⟩ }
      castShadow := true
      receiveShadow := true
      usesBaseMaterial := true }
  let rightArm : MeshPart :=
    { shape := armShape
      geoTranslate := armTranslate
      position := ⟨-0.5, 0.65, 0⟩
      rot := { z := ⟨-(1 / 3.5), 0⟩ }
      castShadow := true
      receiveShadow := true
      usesBaseMaterial := true }
  [leftArm, rightArm]

/-- Sleeveless branch (`ThreeViewer.tsx` lines 220-233): two hemispherical
shoulder caps, flattened by scale (1, 0.5, 0.5). -/
def capParts : List MeshPart :=
  let capShape := Shape.sphere 0.23 16 16 ⟨0, 0⟩ ⟨2, 0⟩ ⟨0, 0⟩ ⟨1 / 2, 0⟩
  let leftCap : MeshPart :=
    { shape := capShape
      position := ⟨0.45, 0.6, 0⟩
      scale := ⟨1, 0.5, 0.5⟩
      usesBaseMaterial := true }
  let rightCap : MeshPart :=
    { shape := capShape
      position := ⟨-0.45, 0.6, 0⟩
      scale := ⟨1, 0.5, 0.5⟩
      usesBaseMaterial := true }
  [leftCap, rightCap]

/-- The per-vertex UV recomputation of the print-area loop
(`ThreeViewer.tsx` lines 248-259): u = (x / 0.82) + 0.5,
v = (y / 0.7) + 0.5 from the vertex's local position. -/
def computePrintUV (p : Vec3) : ℚ × ℚ :=
  ((p.x / 0.82) + 0.5, (p.y / 0.7) + 0.5)

/-- The whole UV remapping loop: every index of the position buffer is
written to the uv buffer with `computePrintUV`. -/
def remapPrintUVs (positions : List Vec3) : List (ℚ × ℚ) :=
  positions.map computePrintUV

/-- `updateTexture` from `ThreeViewer.tsx` lines 303-320, acting on the
decal material.  The null branch runs synchronously: it clears the map,
zeroes the opacity and marks the material.  The non-null branch only
starts an asynchronous texture load, returned as the second component;
the material is untouched until the load callback
(`onTextureLoaded`) runs. -/
def updateTexture (texUrl : Option String) (mat : PrintMaterial) :
    PrintMaterial × Option String :=
  match texUrl with
  | some url => (mat, some url)
  | none => ({ mat with map := none, opacity := 0, needsUpdate := true }, none)

/-- The load callback inside `updateTexture` (`ThreeViewer.tsx` lines
308-314): once the texture is decoded it is forced to sRGB color space and
flipY, installed as the material's map, the opacity set to 1 and the
material marked for update. -/
def onTextureLoaded (tex : Texture) (mat : PrintMaterial) : PrintMaterial :=
  { mat with
      map := some { tex with colorSpace := ColorSpace.srgb, flipY := true }
      opacity := 1
      needsUpdate := true }

/-- `updateTexture` lifted to the garment mesh: the decal mesh's material
is the mesh's `printMaterial`; nothing else is touched. -/
def updateMeshTexture (texUrl : Option String) (m : GarmentMesh) :
    GarmentMesh × Option String :=
  let r := updateTexture texUrl m.printMaterial
  ({ m with printMaterial := r.1 }, r.2)

/-- The load callback lifted to the garment mesh. -/
def onMeshTextureLoaded (tex : Texture) (m : GarmentMesh) : GarmentMesh :=
  { m with printMaterial := onTextureLoaded tex m.printMaterial }

/-- The geometry-rebuild effect of `ThreeViewer.tsx` lines 143-288: derive
the fabric material, assemble torso, collar, sleeves or caps, then the
print decal with its remapped UV buffer, and finally apply the current
design texture (line 286).  `printPositions` is the vertex position buffer
generated for the print sector by the external geometry library; the
result pairs the rebuilt mesh with the texture load the initial
`updateTexture` call may have started. -/
def buildGarmentMesh (sleeveLength : SleeveLength) (fabricType : FabricType)
    (shirtColor : String) (printPositions : List Vec3)
    (designTexture : Option String) : GarmentMesh × Option String :=
  let p := fabricParams fabricType
  let material : Material := { color := shirtColor, roughness := p.1, metalness := p.2 }
  let armsOrCaps : List MeshPart :=
    if sleeveLength.value ≠ "Sleeveless" then sleeveParts sleeveLength else capParts
  let printMat : PrintMaterial :=
    { transparent := true
      opacity := 0
      side := Side.doubleSide
      depthTest := true
      depthWrite := false
      polygonOffset := true
      polygonOffsetFactor := -4
      roughness := p.1
      metalness := p.2 }
  let printPart : MeshPart :=
    { shape := Shape.cylinder 0.56 0.56 0.7 32 1 true ⟨0, -0.8⟩ ⟨0, 1.6⟩
      scale := ⟨1, 1, 0.5⟩
      usesBaseMaterial := false }
  let mesh : GarmentMesh :=
    { parts := [torso, collar] ++ armsOrCaps ++ [printPart]
      baseMaterial := material
      printMaterial := printMat
      printPositions := printPositions
      printUV := remapPrintUVs printPositions }
  updateMeshTexture designTexture mesh

/-- The color-update effect of `ThreeViewer.tsx` lines 291-300: every
child except the print mesh shares the one base material instance, so the
forEach amounts to setting that shared material's color whenever at least
one such child exists. -/
def applyShirtColor (shirtColor : String) (m : GarmentMesh) : GarmentMesh :=
  if m.parts.any (fun p => p.usesBaseMaterial) then
    { m with baseMaterial := { m.baseMaterial with color := shirtColor } }
  else m

/-- Classification of a part as a sleeve cylinder: the closed cylinders of
shoulder radius 0.22 built by the sleeve branch (the torso cylinder has
radius 0.55 and the print sector is open-ended). -/
def MeshPart.isSleeveCylinder (p : MeshPart) : Bool :=
  match p.shape with
  | Shape.cylinder radiusTop _ _ _ _ openEnded _ _ =>
      !openEnded && decide (radiusTop = 0.22)
  | _ => false

/-- Classification of a part as a shoulder cap: the sphere geometries are
built only by the sleeveless branch. -/
def MeshPart.isShoulderCap (p : MeshPart) : Bool :=
  match p.shape with
  | Shape.sphere _ _ _ _ _ _ _ => true
  | _ => false

/-- Classification of a part as the print-decal surface: the only
open-ended cylinder sector. -/
def MeshPart.isPrintDecal (p : MeshPart) : Bool :=
  match p.shape with
  | Shape.cylinder _ _ _ _ _ openEnded _ _ => openEnded
  | _ => false

/-- JavaScript `String.prototype.trim`: strip leading and trailing
whitespace.  (Defined structurally so that concrete calls reduce.) -/
def jsTrim (s : String) : String :=
  String.mk (((s.data.dropWhile Char.isWhitespace).reverse.dropWhile Char.isWhitespace).reverse)

/-- The `DesignState` record from `types.ts`. -/
structure DesignState where
  theme : Theme
  prompt : String
  generatedImageBase64 : Option String
  uploadedImage : Bool
  isGenerating : Bool
  shirtColor : String
  size : ShirtSize
  sleeveLength : SleeveLength
  fabric : FabricType
  quantity : ℤ
  deriving DecidableEq, Repr

/-- The initial design state of `App.tsx` lines 9-20
(`DEFAULT_SHIRT_COLOR` is the Slate 800 hex from `types.ts`). -/
def initialDesignState : DesignState where
  theme := Theme.cyberpunk
  prompt := ""
  generatedImageBase64 := none
  uploadedImage := false
  isGenerating := false
  shirtColor := "#1e293b"
  size := ShirtSize.L
  sleeveLength := SleeveLength.short
  fabric := FabricType.cotton
  quantity := 1

/-- The decrement button of the quantity selector
(`DesignControls.tsx` line 333): quantity := Math.max(1, quantity - 1). -/
def decrementQuantity (q : ℤ) : ℤ := max 1 (q - 1)

/-- The increment button of the quantity selector
(`DesignControls.tsx` line 340): quantity := quantity + 1. -/
def incrementQuantity (q : ℤ) : ℤ := q + 1

/-- A click on one of the two quantity buttons. -/
inductive QuantityClick where
  | increment
  | decrement
  deriving DecidableEq, Repr

/-- Effect of one quantity-button click on the quantity field. -/
def applyQuantityClick (q : ℤ) : QuantityClick → ℤ
  | .increment => incrementQuantity q
  | .decrement => decrementQuantity q

/-- The quantity after a sequence of button clicks, starting from the
initial state's quantity. -/
def runQuantityClicks (clicks : List QuantityClick) : ℤ :=
  clicks.foldl applyQuantityClick initialDesignState.quantity

/-- The disabled condition of the Generate Design button
(`DesignControls.tsx` line 189): `state.isGenerating || !state.prompt.trim()`;
a JavaScript string is falsy exactly when it is empty. -/
def generateButtonDisabled (state : DesignState) : Bool :=
  state.isGenerating || jsTrim state.prompt == ""

/-- The request `handleGenerateArt` sends to the image service
(`geminiService.ts` `generateTShirtDesign` arguments). -/
structure GenerateRequest where
  theme : Theme
  prompt : String
  shirtColor : String
  deriving DecidableEq, Repr

/-- The synchronous prefix of `handleGenerateArt` (`App.tsx` lines 62-66):
an empty prompt (the only falsy string) returns immediately with no state
change and no request; otherwise the busy flag is set and the generation
request is issued.  The asynchronous completion is not needed by the
claims about this handler. -/
def handleGenerateArt (state : DesignState) : Option GenerateRequest × DesignState :=
  if state.prompt = "" then (none, state)
  else
    (some { theme := state.theme, prompt := state.prompt, shirtColor := state.shirtColor },
      { state with isGenerating := true })

/-- Outcome of the external `generateContent` call in
`geminiService.ts`: a response whose `text` field may be absent, or a
thrown failure. -/
inductive GeminiOutcome where
  | ok (text : Option String)
  | failed
  deriving DecidableEq, Repr

/-- `enhancePrompt` from `geminiService.ts` lines 42-61.  A missing API
key throws before any call.  Otherwise the result is
`result.text?.trim() || currentPrompt`: the trimmed response text when it
is present and non-empty (the only falsy string), and the original prompt
when the text is absent or trims to empty; a thrown call failure is caught
and also falls back to the original prompt. -/
def enhancePrompt (apiKey : String) (currentPrompt : String) (_theme : Theme)
    (outcome : GeminiOutcome) : Except String String :=
  if apiKey = "" then Except.error "API Key is missing."
  else
    match outcome with
    | GeminiOutcome.ok text =>
        Except.ok (match text.map jsTrim with
          | some t => if t = "" then currentPrompt else t
          | none => currentPrompt)
    | GeminiOutcome.failed => Except.ok currentPrompt

/-- The fixed fabric table of the specification (section 4.1), written
from the spec's words for comparison with the code's derivation. -/
def fabricTableSpec : FabricType → ℚ × ℚ
  | FabricType.cotton => (0.9, 0.0)
  | FabricType.polyester => (0.5, 0.1)
  | FabricType.silk => (0.3, 0.2)

/-- Parts are unchanged by a texture update, whichever branch runs. -/
theorem updateMeshTexture_parts (u : Option String) (m : GarmentMesh) :
    (updateMeshTexture u m).1.parts = m.parts := by
  cases u <;> rfl

/-- The quantity stays at least 1 under any run of button clicks from any
start at least 1. -/
theorem foldl_quantity_ge_one (l : List QuantityClick) :
    ∀ q : ℤ, 1 ≤ q → 1 ≤ l.foldl applyQuantityClick q := by
  induction l with
  | nil => intro q hq; simpa using hq
  | cons hd tl ih =>
      intro q hq
      refine ih _ ?_
      cases hd <;>
        simp only [applyQuantityClick, incrementQuantity, decrementQuantity] <;> omega

/-- Claim C1: for every sleeveLength the rebuilt garment mesh contains
exactly two sleeve cylinders and no shoulder caps when the sleeve length
is short or long, and exactly two shoulder caps and no sleeve cylinders
when it is sleeveless — never both kinds at once and never neither. -/
theorem sleeve_configuration_exclusive (sl : SleeveLength) (fab : FabricType)
    (c : String) (ps : List Vec3) (tex : Option String) :
    ((buildGarmentMesh sl fab c ps tex).1.parts.countP MeshPart.isSleeveCylinder
        = if sl = SleeveLength.sleeveless then 0 else 2) ∧
    ((buildGarmentMesh sl fab c ps tex).1.parts.countP MeshPart.isShoulderCap
        = if sl = SleeveLength.sleeveless then 2 else 0) := by
  cases sl <;> cases tex <;>
    simp [buildGarmentMesh, updateMeshTexture, updateTexture, sleeveParts, capParts,
      torso, collar, SleeveLength.value, List.countP, List.countP.go,
      MeshPart.isSleeveCylinder, MeshPart.isShoulderCap] <;> norm_num

/-- Claim C2: every vertex of the print-decal geometry receives exactly
u = (x / 0.82) + 0.5 and v = (y / 0.7) + 0.5 from its local position;
the position buffer itself is stored unscaled while the depth-flattening
scale (1, 1, 0.5) sits on the decal mesh, and rebuilding from the same
positions — with any other options — recomputes the very same UVs. -/
theorem print_uv_from_position (sl sl' : SleeveLength) (fab fab' : FabricType)
    (c c' : String) (ps : List Vec3) (tex tex' : Option String) (i : ℕ)
    (part : MeshPart) (hmem : part ∈ (buildGarmentMesh sl fab c ps tex).1.parts)
    (hdecal : part.isPrintDecal = true) :
    ((buildGarmentMesh sl fab c ps tex).1.printUV)[i]? =
      (ps[i]?.map (fun p => ((p.x / 0.82) + 0.5, (p.y / 0.7) + 0.5))) ∧
    (buildGarmentMesh sl fab c ps tex).1.printPositions = ps ∧
    part.scale = ⟨1, 1, 0.5⟩ ∧
    (buildGarmentMesh sl' fab' c' ps tex').1.printUV
        = (buildGarmentMesh sl fab c ps tex).1.printUV := by
  refine ⟨?_, ?_, ?_, ?_⟩
  · cases tex <;>
      simp [buildGarmentMesh, updateMeshTexture, updateTexture, remapPrintUVs,
        List.getElem?_map] <;>
      cases ps[i]? <;> simp [computePrintUV]
  · cases tex <;> simp [buildGarmentMesh, updateMeshTexture, updateTexture]
  · cases sl <;> cases tex <;>
      simp [buildGarmentMesh, updateMeshTexture, updateTexture, sleeveParts, capParts,
        torso, collar, SleeveLength.value] at hmem <;>
      rcases hmem with h | h | h | h | h <;> subst h <;>
        first
          | rfl
          | (exfalso; simp [MeshPart.isPrintDecal, torso, collar, sleeveParts, capParts] at hdecal)
  · cases tex <;> cases tex' <;>
      simp [buildGarmentMesh, updateMeshTexture, updateTexture]

/-- Witness for claim C2: a concrete rebuild from a one-vertex buffer,
instantiated at the decal part of that mesh, whose UV comes out as the
claimed formula. -/
theorem print_uv_from_position_witness :
    ((⟨Shape.cylinder 0.56 0.56 0.7 32 1 true ⟨0, -0.8⟩ ⟨0, 1.6⟩, ⟨0, 0, 0⟩, ⟨0, 0, 0⟩,
        ⟨⟨0, 0⟩, ⟨0, 0⟩, ⟨0, 0⟩⟩, ⟨1, 1, 0.5⟩, false, false, false⟩ : MeshPart) ∈
      (buildGarmentMesh SleeveLength.short FabricType.cotton "#1e293b"
        [⟨0.41, 0.35, 0⟩] none).1.parts) ∧
    ((⟨Shape.cylinder 0.56 0.56 0.7 32 1 true ⟨0, -0.8⟩ ⟨0, 1.6⟩, ⟨0, 0, 0⟩, ⟨0, 0, 0⟩,
        ⟨⟨0, 0⟩, ⟨0, 0⟩, ⟨0, 0⟩⟩, ⟨1, 1, 0.5⟩, false, false, false⟩ : MeshPart).isPrintDecal
      = true) ∧
    (((buildGarmentMesh SleeveLength.short FabricType.cotton "#1e293b"
          [⟨0.41, 0.35, 0⟩] none).1.printUV)[0]? =
        (([⟨0.41, 0.35, 0⟩] : List Vec3)[0]?.map
          ((fun p => ((p.x / 0.82) + 0.5, (p.y / 0.7) + 0.5)) : Vec3 → ℚ × ℚ))) ∧
    ((buildGarmentMesh SleeveLength.long FabricType.silk "#000000"
        [⟨0.41, 0.35, 0⟩] (some "img")).1.printUV
      = (buildGarmentMesh SleeveLength.short FabricType.cotton "#1e293b"
          [⟨0.41, 0.35, 0⟩] none).1.printUV) := by
  have hmem : (⟨Shape.cylinder 0.56 0.56 0.7 32 1 true ⟨0, -0.8⟩ ⟨0, 1.6⟩, ⟨0, 0, 0⟩,
      ⟨0, 0, 0⟩, ⟨⟨0, 0⟩, ⟨0, 0⟩, ⟨0, 0⟩⟩, ⟨1, 1, 0.5⟩, false, false, false⟩ : MeshPart) ∈
      (buildGarmentMesh SleeveLength.short FabricType.cotton "#1e293b"
        [⟨0.41, 0.35, 0⟩] none).1.parts := by
    simp [buildGarmentMesh, updateMeshTexture, updateTexture, sleeveParts,
      SleeveLength.value]
  have h := print_uv_from_position SleeveLength.short SleeveLength.long FabricType.cotton
    FabricType.silk "#1e293b" "#000000" [⟨0.41, 0.35, 0⟩] none (some "img") 0 _ hmem rfl
  exact ⟨hmem, rfl, h.1, h.2.2.2⟩

/-- Claim C3: the (roughness, metalness) pair the mesh builder derives is
exactly the fixed table — cotton (the default branch) 0.9/0.0,
performance-poly 0.5/0.1, silk-blend 0.3/0.2. -/
theorem fabric_material_table (fab : FabricType) (sl : SleeveLength) (c : String)
    (ps : List Vec3) (tex : Option String) :
    fabricParams fab = fabricTableSpec fab ∧
    ((buildGarmentMesh sl fab c ps tex).1.baseMaterial.roughness,
      (buildGarmentMesh sl fab c ps tex).1.baseMaterial.metalness) = fabricTableSpec fab := by
  constructor
  · cases fab <;> simp [fabricParams, FabricType.value, fabricTableSpec]
  · cases fab <;> cases tex <;>
      simp [buildGarmentMesh, updateMeshTexture, updateTexture, fabricParams,
        FabricType.value, fabricTableSpec]

/-- Claim C4: the quantity starts at 1, never drops below 1 under any
sequence of quantity-button clicks, decrementing from 1 yields 1, and
three increments followed by one decrement yield 3; an increment adds
exactly 1 and a decrement computes max(1, quantity - 1) by definition. -/
theorem quantity_floor_invariant (clicks : List QuantityClick) (q : ℤ) :
    runQuantityClicks [] = 1 ∧
    1 ≤ runQuantityClicks clicks ∧
    decrementQuantity 1 = 1 ∧
    incrementQuantity q = q + 1 ∧
    decrementQuantity q = max 1 (q - 1) ∧
    runQuantityClicks
      [QuantityClick.increment, QuantityClick.increment, QuantityClick.increment,
        QuantityClick.decrement] = 3 := by
  exact ⟨by decide, foldl_quantity_ge_one clicks 1 (by decide), by decide, rfl, rfl, by decide⟩

/-- Claim C5: the texture binder clears the map and zeroes the opacity on
a null image, leaves the material untouched synchronously on a non-null
image (only starting a load), and — once decoding completes — installs the
decoded texture as the sRGB color map, sets opacity 1 and marks the
material for update. -/
theorem texture_binder_null_and_load (mat : PrintMaterial) (url : String) (tex : Texture) :
    ((updateTexture none mat).1.map = none ∧
      (updateTexture none mat).1.opacity = 0 ∧
      (updateTexture none mat).1.needsUpdate = true ∧
      (updateTexture none mat).2 = none) ∧
    (updateTexture (some url) mat = (mat, some url)) ∧
    ((onTextureLoaded tex mat).map
        = some { tex with colorSpace := ColorSpace.srgb, flipY := true } ∧
      (onTextureLoaded tex mat).opacity = 1 ∧
      (onTextureLoaded tex mat).needsUpdate = true) :=
  ⟨⟨rfl, rfl, rfl, rfl⟩, rfl, rfl, rfl, rfl⟩

/-- Claim C6: every rebuild, for every option combination and whether or
not artwork is bound, contains exactly one print-decal surface whose
material is created with opacity 0, transparent, double-sided, depth-test
on, depth-write off and a negative polygon offset; texture updates and
load completions never add or remove parts — visibility is steered only
through the decal material. -/
theorem print_decal_always_present (sl : SleeveLength) (fab : FabricType) (c : String)
    (ps : List Vec3) (tex u : Option String) (t : Texture) :
    ((buildGarmentMesh sl fab c ps tex).1.parts.countP MeshPart.isPrintDecal = 1) ∧
    ((buildGarmentMesh sl fab c ps tex).1.printMaterial.transparent = true) ∧
    ((buildGarmentMesh sl fab c ps tex).1.printMaterial.opacity = 0) ∧
    ((buildGarmentMesh sl fab c ps tex).1.printMaterial.side = Side.doubleSide) ∧
    ((buildGarmentMesh sl fab c ps tex).1.printMaterial.depthTest = true) ∧
    ((buildGarmentMesh sl fab c ps tex).1.printMaterial.depthWrite = false) ∧
    ((buildGarmentMesh sl fab c ps tex).1.printMaterial.polygonOffset = true) ∧
    ((buildGarmentMesh sl fab c ps tex).1.printMaterial.polygonOffsetFactor < 0) ∧
    ((updateMeshTexture u (buildGarmentMesh sl fab c ps tex).1).1.parts
        = (buildGarmentMesh sl fab c ps tex).1.parts) ∧
    ((onMeshTextureLoaded t (buildGarmentMesh sl fab c ps tex).1).parts
        = (buildGarmentMesh sl fab c ps tex).1.parts) := by
  cases sl <;> cases tex <;> cases u <;>
    simp [buildGarmentMesh, updateMeshTexture, updateTexture, onMeshTextureLoaded,
      sleeveParts, capParts, torso, collar, SleeveLength.value, List.countP, List.countP.go,
      MeshPart.isPrintDecal]

/-- Claim C7: the Generate Design control is disabled whenever the prompt
trims to empty or a generation is already in flight, and the generate
handler returns with no request and no state change when the prompt is the
empty string. -/
theorem empty_prompt_generation_rejected (s1 s2 s3 : DesignState)
    (h1 : jsTrim s1.prompt = "") (h2 : s2.isGenerating = true) (h3 : s3.prompt = "") :
    generateButtonDisabled s1 = true ∧
    generateButtonDisabled s2 = true ∧
    handleGenerateArt s3 = (none, s3) := by
  refine ⟨?_, ?_, ?_⟩
  · simp [generateButtonDisabled, h1]
  · simp [generateButtonDisabled, h2]
  · simp [handleGenerateArt, h3]

/-- Witness for claim C7: the initial state with a whitespace-only prompt
has a disabled button, any in-flight state has a disabled button, and the
initial (empty-prompt) state is rejected by the handler. -/
theorem empty_prompt_generation_rejected_witness :
    jsTrim "   " = "" ∧
    initialDesignState.prompt = "" ∧
    (generateButtonDisabled { initialDesignState with prompt := "   " } = true ∧
      generateButtonDisabled { initialDesignState with isGenerating := true } = true ∧
      handleGenerateArt initialDesignState = (none, initialDesignState)) :=
  ⟨by decide, rfl,
    empty_prompt_generation_rejected { initialDesignState with prompt := "   " }
      { initialDesignState with isGenerating := true } initialDesignState
      (by decide) rfl rfl⟩

/-- Claim C8: with the API key configured, prompt enhancement returns the
revised (trimmed, non-empty) text on a successful call and falls back to
the original prompt unchanged on a thrown call failure, for every prompt
and theme. -/
theorem enhance_prompt_fallback (apiKey currentPrompt : String) (theme : Theme)
    (t : String) (hkey : apiKey ≠ "") (ht : jsTrim t ≠ "") :
    enhancePrompt apiKey currentPrompt theme (GeminiOutcome.ok (some t))
        = Except.ok (jsTrim t) ∧
    enhancePrompt apiKey currentPrompt theme GeminiOutcome.failed
        = Except.ok currentPrompt := by
  constructor <;> simp [enhancePrompt, hkey, ht]

/-- Witness for claim C8: a concrete successful enhancement returns the
trimmed revision, and a concrete failure returns the prompt itself. -/
theorem enhance_prompt_fallback_witness :
    ("k" : String) ≠ "" ∧ jsTrim " big wolf " ≠ "" ∧
    (enhancePrompt "k" "wolf" Theme.cyberpunk (GeminiOutcome.ok (some " big wolf "))
        = Except.ok (jsTrim " big wolf ") ∧
      enhancePrompt "k" "wolf" Theme.cyberpunk GeminiOutcome.failed = Except.ok "wolf") :=
  ⟨by decide, by decide,
    enhance_prompt_fallback "k" "wolf" Theme.cyberpunk " big wolf " (by decide) (by decide)⟩

/-- Claim C9: a base-color change leaves every part, the decal material
(map, opacity and color included) and the print buffers untouched, and
only rewrites the color of the shared base material, keeping its fabric
parameters. -/
theorem color_change_in_place (sl : SleeveLength) (fab : FabricType) (c0 : String)
    (ps : List Vec3) (tex : Option String) (c : String) :
    (applyShirtColor c (buildGarmentMesh sl fab c0 ps tex).1).parts
        = (buildGarmentMesh sl fab c0 ps tex).1.parts ∧
    (applyShirtColor c (buildGarmentMesh sl fab c0 ps tex).1).printMaterial
        = (buildGarmentMesh sl fab c0 ps tex).1.printMaterial ∧
    (applyShirtColor c (buildGarmentMesh sl fab c0 ps tex).1).printPositions
        = (buildGarmentMesh sl fab c0 ps tex).1.printPositions ∧
    (applyShirtColor c (buildGarmentMesh sl fab c0 ps tex).1).printUV
        = (buildGarmentMesh sl fab c0 ps tex).1.printUV ∧
    (applyShirtColor c (buildGarmentMesh sl fab c0 ps tex).1).baseMaterial.color = c ∧
    (applyShirtColor c (buildGarmentMesh sl fab c0 ps tex).1).baseMaterial.roughness
        = (buildGarmentMesh sl fab c0 ps tex).1.baseMaterial.roughness ∧
    (applyShirtColor c (buildGarmentMesh sl fab c0 ps tex).1).baseMaterial.metalness
        = (buildGarmentMesh sl fab c0 ps tex).1.baseMaterial.metalness := by
  cases sl <;> cases tex <;>
    simp [applyShirtColor, buildGarmentMesh, updateMeshTexture, updateTexture,
      sleeveParts, capParts, torso, collar, SleeveLength.value]

/-- Claim C10: with the API key configured, a successful enhancement
response whose text is absent or trims to empty (empty or whitespace-only)
also returns the original prompt unchanged. -/
theorem enhance_prompt_empty_response_fallback (apiKey currentPrompt : String)
    (theme : Theme) (t : String) (hkey : apiKey ≠ "") (ht : jsTrim t = "") :
    enhancePrompt apiKey currentPrompt theme (GeminiOutcome.ok (some t))
        = Except.ok currentPrompt ∧
    enhancePrompt apiKey currentPrompt theme (GeminiOutcome.ok none)
        = Except.ok currentPrompt := by
  constructor <;> simp [enhancePrompt, hkey, ht]

/-- Witness for claim C10: a whitespace-only successful response and an
absent-text successful response both return the original prompt. -/
theorem enhance_prompt_empty_response_fallback_witness :
    ("k" : String) ≠ "" ∧ jsTrim "   " = "" ∧
    (enhancePrompt "k" "wolf" Theme.cyberpunk (GeminiOutcome.ok (some "   "))
        = Except.ok "wolf" ∧
      enhancePrompt "k" "wolf" Theme.cyberpunk (GeminiOutcome.ok none)
        = Except.ok "wolf") :=
  ⟨by decide, by decide,
    enhance_prompt_empty_response_fallback "k" "wolf" Theme.cyberpunk "   "
      (by decide) (by decide)⟩
